import Mathlib

/-!
Verification development for the saj_r5_mqtt Home Assistant integration.

The Python sources under custom_components/saj_r5_mqtt are shallowly embedded:
byte buffers become `List ℕ` (each entry one byte), Python exceptions become
`Option`/`Except`, Python numeric values become `ℚ`/`ℤ` (exact arithmetic in
place of IEEE floats), and the asynchronous coordinator/bridge machinery
becomes explicit state-passing step functions.
-/

namespace SajR5Mqtt

/-! ### Python-style numeric primitives

These model the exact Python operations used by entity.py / number.py:
`round(x, n)` (banker's rounding), `int(x)` (truncation toward zero),
`str.find` (first index or -1) and fixed-precision string formatting.
-/

/-- Floor of a rational, computed from its normalized numerator/denominator. -/
def ratFloor (x : ℚ) : ℤ := x.num.fdiv x.den

/-- Round a rational to the nearest integer, ties to even
(the behaviour of Python's builtin `round`). -/
def roundHalfEven (x : ℚ) : ℤ :=
  let f := ratFloor x
  let r := x - (f : ℚ)
  if r < 1/2 then f
  else if 1/2 < r then f + 1
  else if f % 2 = 0 then f else f + 1

/-- Python's `round(x, n)` on exact rationals. -/
def pyRound (x : ℚ) (n : ℕ) : ℚ := (roundHalfEven (x * 10 ^ n) : ℚ) / 10 ^ n

/-- Python's `int(x)`: truncation toward zero. -/
def pyInt (x : ℚ) : ℤ := if 0 ≤ x then ratFloor x else -(ratFloor (-x))

/-- Python's `str.find` on a list of characters: index of the first
occurrence, or -1 when the character is absent. -/
def pyStrFind (c : Char) : List Char → ℤ
  | [] => -1
  | x :: xs =>
    if x = c then 0
    else
      let r := pyStrFind c xs
      if r < 0 then -1 else r + 1

/-- The digit computation of entity.py line 198:
`digits = max(0, str(scale)[::-1].find("."))`. -/
def digitsOfScaleText (t : String) : ℕ :=
  (max 0 (pyStrFind (Char.ofNat 46) t.data.reverse)).toNat

/-- Spec-side reading of the same quantity: the number of decimal digits of
the scale factor's textual form, i.e. the number of characters after the
last dot (0 if the text has no dot). -/
def decimalDigitCount (t : String) : ℕ :=
  let l := t.data.reverse
  if (Char.ofNat 46) ∈ l then (l.takeWhile (fun x => x != Char.ofNat 46)).length else 0

/-- Left-pad a numeral string with zeros up to width `n`. -/
def zeroPad (s : String) (n : ℕ) : String :=
  String.mk (List.replicate (n - s.length) (Char.ofNat 48)) ++ s

/-- Python's fixed-precision rendering, as in
`"\x7b:.\x7bprecision\x7df\x7d".format(value, precision=digits)`. -/
def formatFixed (x : ℚ) (n : ℕ) : String :=
  let m := roundHalfEven (x * 10 ^ n)
  let a := m.natAbs
  let ip := a / 10 ^ n
  let fp := a % 10 ^ n
  (if m < 0 then "-" else "") ++ toString ip ++
    (if n = 0 then "" else "." ++ zeroPad (toString fp) n)

/-! ### Register decoder (entity.py `get_entity_description`)

A payload is the raw register buffer (one `ℕ` per byte).  Decoded values are
Python ints, floats (exact `ℚ` here) or strings.  A struct data type like
`">H"`, `">h"`, `">I"` or `"20s"` is embedded as `RegDataType`; the code
branches on whether the type string ends in `"s"` (string) first, which the
`strFixed` constructor mirrors.
-/

/-- A decoded Python value: `int`, `float` (exact rational) or `str`. -/
inductive SajValue where
  | int (z : ℤ)
  | num (q : ℚ)
  | str (s : String)
deriving DecidableEq

/-- Struct data types used by the entity descriptions:
`">H"` (big-endian u16), `">h"` (big-endian s16), `">I"` (big-endian u32)
and `"Ns"` (fixed-length byte string of N bytes). -/
inductive RegDataType where
  | u16be
  | s16be
  | u32be
  | strFixed (n : ℕ)
deriving DecidableEq

/-- Python's `modbus_register_scale` is `float | str | None`; when present we
carry both `float(scale)` (as an exact rational `value`) and `str(scale)`
(its textual form `text`), plus whether the field was string-typed. -/
structure ScaleRepr where
  value : ℚ
  text : String
  isStr : Bool

/-- Embedding of `SajR5MqttEntityDescription` (entity.py lines 27-36),
restricted to the fields the decoder reads.  A raised exception inside a
`value_fn` is modelled as the function returning `none`. -/
structure SajR5MqttEntityDescription where
  key : String
  modbus_register_offset : ℕ
  modbus_register_data_type : RegDataType
  modbus_register_scale : Option ScaleRepr
  value_fn : Option (SajValue → Option SajValue)

/-- Byte lookup with default 0 (indices are always in bounds where used). -/
def byteAt (p : List ℕ) (i : ℕ) : ℕ := p.getD i 0

/-- Size in bytes of a struct data type. -/
def typeSize : RegDataType → ℕ
  | .u16be => 2
  | .s16be => 2
  | .u32be => 4
  | .strFixed n => n

/-- Two's-complement reading of a 16-bit quantity. -/
def toSigned16 (v : ℕ) : ℤ := if v < 32768 then (v : ℤ) else (v : ℤ) - 65536

/-- `struct.unpack_from(fmt, payload, offset)` for the numeric formats:
fails (raises `struct.error`, embedded as `none`) when the buffer has fewer
than `typeSize` bytes from `offset` on. -/
def unpackNumeric (t : RegDataType) (p : List ℕ) (off : ℕ) : Option ℤ :=
  if off + typeSize t ≤ p.length then
    match t with
    | .u16be => some ((byteAt p off * 256 + byteAt p (off + 1) : ℕ) : ℤ)
    | .s16be => some (toSigned16 (byteAt p off * 256 + byteAt p (off + 1)))
    | .u32be => some ((byteAt p off * 16777216 + byteAt p (off + 1) * 65536 +
        byteAt p (off + 2) * 256 + byteAt p (off + 3) : ℕ) : ℤ)
    | .strFixed _ => none
  else none

/-- Python slice `p[off : off + n]` (clamps, never fails). -/
def pySlice (p : List ℕ) (off n : ℕ) : List ℕ := (p.drop off).take n

/-- `bytes.decode("ascii", errors="ignore")`: bytes ≥ 0x80 are dropped,
the rest become their ASCII characters. -/
def asciiDecodeIgnore (bs : List ℕ) : List Char :=
  (bs.filter (fun b => b < 128)).map Char.ofNat

/-- `str.rstrip(c)`: drop trailing occurrences of a character. -/
def rstripChar (c : Char) (cs : List Char) : List Char :=
  (cs.reverse.dropWhile (fun x => x = c)).reverse

/-- The string branch of the decoder (entity.py lines 182-187):
slice the fixed span, ASCII-decode ignoring invalid bytes, strip trailing
NUL padding. -/
def textDecode (bs : List ℕ) : String :=
  String.mk (rstripChar (Char.ofNat 0) (asciiDecodeIgnore bs))

/-- Raw value extraction (entity.py lines 181-194): string types are sliced
and text-decoded, numeric types go through `struct.unpack_from`. -/
def rawValue (d : SajR5MqttEntityDescription) (p : List ℕ) : Option SajValue :=
  match d.modbus_register_data_type with
  | .strFixed n =>
      some (.str (textDecode (pySlice p d.modbus_register_offset n)))
  | t => (unpackNumeric t p d.modbus_register_offset).map SajValue.int

/-- Scale application (entity.py lines 196-201): multiply by `float(scale)`,
round to the digit count of `str(scale)`, and render as a fixed-precision
string when the scale itself was a string. -/
def applyScale (sc : ScaleRepr) (x : ℚ) : SajValue :=
  let digits := digitsOfScaleText sc.text
  let v := pyRound (x * sc.value) digits
  if sc.isStr then .str (formatFixed v digits) else .num v

/-- Scale step of the decoder.  Multiplying a Python `str` value by a float
raises `TypeError`, which the enclosing handler turns into `None`. -/
def scaledValue (d : SajR5MqttEntityDescription) (v : SajValue) : Option SajValue :=
  match d.modbus_register_scale with
  | none => some v
  | some sc =>
    match v with
    | .int z => some (applyScale sc (z : ℚ))
    | .num q => some (applyScale sc q)
    | .str _ => none

/-- Embedding of `get_entity_description` (entity.py lines 172-211):
`None` payload yields `None`; any exception in extraction, scaling or the
value function is caught and yields `None`. -/
def get_entity_description (payload : Option (List ℕ))
    (d : SajR5MqttEntityDescription) : Option SajValue :=
  match payload with
  | none => none
  | some p =>
    match rawValue d p with
    | none => none
    | some v =>
      match scaledValue d v with
      | none => none
      | some v2 =>
        match d.value_fn with
        | none => some v2
        | some f => f v2

/-! ### Inverter time sensor (sensor.py `SajR5MqttInverterTimeSensorEntity`) -/

/-- The decoded inverter timestamp (the fixed UTC zone attached by the code
carries no information and is omitted). -/
structure InverterTime where
  year : ℕ
  month : ℕ
  day : ℕ
  hour : ℕ
  minute : ℕ
  second : ℕ
deriving DecidableEq

/-- Gregorian leap-year rule, as used by Python's `datetime`. -/
def isLeapYear (y : ℕ) : Bool :=
  (y % 4 = 0 && y % 100 ≠ 0) || y % 400 = 0

/-- Days in a month for Python's `datetime`. -/
def daysInMonth (y m : ℕ) : ℕ :=
  if m = 2 then (if isLeapYear y then 29 else 28)
  else if m = 4 ∨ m = 6 ∨ m = 9 ∨ m = 11 then 30
  else 31

/-- Field combinations accepted by `datetime(year, month, day, hour, minute,
second)`; anything else raises `ValueError`. -/
def validDateTime (y mo d h mi s : ℕ) : Bool :=
  1 ≤ y && y ≤ 9999 && 1 ≤ mo && mo ≤ 12 &&
  1 ≤ d && d ≤ daysInMonth y mo && h ≤ 23 && mi ≤ 59 && s ≤ 59

/-- Embedding of `SajR5MqttInverterTimeSensorEntity.native_value`
(sensor.py lines 287-318): slice 8 bytes at the offset, return `None` when
the span is short, build the timestamp fields, and return `None` (instead
of raising) when `datetime` would reject them. -/
def inverterTimeNativeValue (payload : Option (List ℕ)) (offset : ℕ) :
    Option InverterTime :=
  match payload with
  | none => none
  | some p =>
    let td := pySlice p offset 8
    if td.length < 8 then none
    else
      let year := byteAt td 0 * 256 + byteAt td 1
      let month := byteAt td 2
      let day := byteAt td 3
      let hour := byteAt td 4
      let minute := byteAt td 5
      let second := byteAt td 6
      if validDateTime year month day hour minute second then
        some ⟨year, month, day, hour, minute, second⟩
      else none

/-! ### Poll coordinators (coordinator.py)

`SajR5MqttDataCoordinator` holds `data : bytearray | None` and a `ready`
flag.  `_async_update_data` (lines 70-75) skips the fetch and returns `None`
while not ready; otherwise each concrete coordinator's `_async_fetch_data`
issues exactly one `mqtt_client.read_registers` call.  The surrounding
refresh step (storing the returned value on success, keeping the previous
`data` and recording the failure when the fetch raises) is performed by Home
Assistant's `DataUpdateCoordinator` and, for the failure mode of
`read_registers`, by the absent client.py; that part is modelled from the
spec: on failure the previous buffer is retained and the failure is reported
to observers without raising further up.
-/

/-- Coordinator state: cached buffer, readiness flag, and the success flag
reported to observers. -/
structure CoordinatorState where
  data : Option (List ℕ)
  ready : Bool
  lastUpdateSuccess : Bool
deriving DecidableEq

/-- Outcome of one `read_registers` transport call: a fresh buffer, or a
raised failure (timeout / transport down). -/
inductive FetchOutcome where
  | success (buf : List ℕ)
  | failure
deriving DecidableEq

/-- One scheduled tick of a coordinator, given the outcome the transport
would produce if called.  Returns the new state and the number of
`read_registers` calls the tick performed.  Not ready: the fetch is skipped
(`_async_update_data` returns `None`, stored as a successful update with no
data).  Ready: exactly one call; on success the buffer is replaced, on a
raised failure the previous buffer is kept and only the success flag drops.
The tick is a total function: a fetch failure never escapes it. -/
def coordinatorTick (s : CoordinatorState) (f : FetchOutcome) :
    CoordinatorState × ℕ :=
  if s.ready then
    match f with
    | .success b => ({ s with data := some b, lastUpdateSuccess := true }, 1)
    | .failure => ({ s with lastUpdateSuccess := false }, 1)
  else
    ({ s with data := none, lastUpdateSuccess := true }, 0)

/-- Run a sequence of scheduled ticks, accumulating the transport calls. -/
def runTicks (s : CoordinatorState) : List FetchOutcome → CoordinatorState × ℕ
  | [] => (s, 0)
  | f :: fs =>
    let r := coordinatorTick s f
    let rest := runTicks r.1 fs
    (rest.1, r.2 + rest.2)

/-- `SajR5MqttData.mark_coordinators_ready` for one coordinator
(coordinator.py lines 25-29): sets the ready flag. -/
def markReady (s : CoordinatorState) : CoordinatorState := { s with ready := true }

/-! ### Transport bridge (SajR5MqttClient, client.py)

client.py is not part of the available sources; the bridge is modelled from
the spec: requests are serialized, at most one in flight, queued callers are
served strictly in arrival order, and a request's publish happens only when
it becomes the in-flight request.  The observable actions (publishes and
resolutions, in chronological order) are recorded in a trace.
-/

/-- Observable bridge actions: a request's frame is published, or the
in-flight request resolves (by matching response or by timeout). -/
inductive BridgeAction where
  | published (id : ℕ)
  | resolved (id : ℕ)
deriving DecidableEq

/-- Bridge state: the in-flight request (at most one, by construction of the
model from the spec's single-flight rule), the arrival-ordered queue of
waiting requests, and the chronological action trace. -/
structure BridgeState where
  inFlight : Option ℕ
  queue : List ℕ
  trace : List BridgeAction
deriving DecidableEq

/-- Events driving the bridge: a new `request` call arrives, or the current
in-flight request completes (matching response or deadline). -/
inductive BridgeEvent where
  | submit (id : ℕ)
  | complete
deriving DecidableEq

/-- Modelled from the spec: the bridge publishes a submitted request at once
when idle and queues it otherwise; on completion the resolved request leaves
and the head of the queue (if any) is published next. -/
def bridgeStep (s : BridgeState) : BridgeEvent → BridgeState
  | .submit i =>
    match s.inFlight with
    | none => { s with inFlight := some i, trace := s.trace ++ [.published i] }
    | some _ => { s with queue := s.queue ++ [i] }
  | .complete =>
    match s.inFlight with
    | none => s
    | some i =>
      match s.queue with
      | [] => { inFlight := none, queue := [], trace := s.trace ++ [.resolved i] }
      | j :: rest =>
        { inFlight := some j, queue := rest,
          trace := s.trace ++ [.resolved i, .published j] }

/-- Run the bridge from the idle state over a sequence of events. -/
def bridgeRun (events : List BridgeEvent) : BridgeState :=
  events.foldl bridgeStep ⟨none, [], []⟩

/-- Trace scanner: `some pending` means the trace is serialized so far and
`pending` tells whether a published request is still unresolved; `none`
means a publish occurred while an earlier request was still unresolved. -/
def scanStep : Option Bool → BridgeAction → Option Bool
  | none, _ => none
  | some pending, .published _ => if pending then none else some true
  | some _, .resolved _ => some false

/-- Scan a whole trace, starting with nothing in flight. -/
def scanTrace (tr : List BridgeAction) : Option Bool :=
  tr.foldl scanStep (some false)

/-! ### Power-limit number entity (number.py) -/

/-- Embedding of `SajR5MqttNumberEntityDescription` (number.py lines 32-40),
restricted to the fields `async_set_native_value` reads plus the accepted
range. -/
structure SajR5MqttNumberEntityDescription where
  key : String
  native_min_value : ℚ
  native_max_value : ℚ
  native_step : ℚ
  modbus_register : ℕ
  value_scale : ℚ

/-- The single `NUMBER_TYPES` entry (number.py lines 43-55): power limit,
range 0-110 step 1, register 0x801F, value scale 10. -/
def powerLimitNumberDescription : SajR5MqttNumberEntityDescription :=
  ⟨"power_limit", 0, 110, 1, 0x801F, 10⟩

/-- Embedding of `SajR5MqttNumber.async_set_native_value` (number.py lines
123-146).  `write_register` stands for the mqtt client's write, returning
`none` for a null result.  The embedding returns the (register, value) pair
actually written and whether a `HomeAssistantError` was raised. -/
def async_set_native_value (d : SajR5MqttNumberEntityDescription) (value : ℚ)
    (write_register : ℕ → ℤ → Option ℕ) : (ℕ × ℤ) × Bool :=
  let scaled := pyInt (value * d.value_scale)
  let result := write_register d.modbus_register scaled
  ((d.modbus_register, scaled), result.isNone)

/-! ### Module-level names (for the setup / runtime-data record)

`async_setup_entry` (the init module, lines 84-97) constructs the optional
config-data coordinator and passes it to the `SajR5MqttData` dataclass; the
facts below record, as data, which names each module actually defines,
imports and passes, read directly off the sources.
-/

/-- Field names of the dataclass `SajR5MqttData` (coordinator.py lines
17-29). -/
def sajR5MqttDataFields : List String :=
  ["mqtt_client", "coordinator_realtime_data", "coordinator_inverter_data"]

/-- Coordinator names set to ready by `SajR5MqttData.mark_coordinators_ready`
(coordinator.py lines 25-29). -/
def markCoordinatorsReadyTargets : List String :=
  ["coordinator_realtime_data", "coordinator_inverter_data"]

/-- Top-level class names defined by coordinator.py. -/
def coordinatorModuleClasses : List String :=
  ["SajR5MqttData", "SajR5MqttDataCoordinator",
   "SajR5MqttRealtimeDataCoordinator", "SajR5MqttInverterDataCoordinator"]

/-- Names the init module imports from `.coordinator` (lines 23-28). -/
def initCoordinatorImports : List String :=
  ["SajR5MqttConfigDataCoordinator", "SajR5MqttData",
   "SajR5MqttInverterDataCoordinator", "SajR5MqttRealtimeDataCoordinator"]

/-- Keyword arguments `async_setup_entry` passes to `SajR5MqttData(...)`
(init module lines 92-97). -/
def asyncSetupEntryRuntimeDataKwargs : List String :=
  ["mqtt_client", "coordinator_realtime_data", "coordinator_inverter_data",
   "coordinator_config_data"]

/-- Attributes of the runtime data record that sensor.py reads during its
setup (lines 189, 209, 233, 243). -/
def sensorSetupRuntimeDataAttrs : List String :=
  ["coordinator_inverter_data", "coordinator_realtime_data",
   "coordinator_config_data"]

/-- A Python dataclass call accepts a keyword-argument set only when every
keyword names a declared field. -/
def dataclassCallAccepted (fields kwargs : List String) : Bool :=
  kwargs.all fields.contains

/-! ### Helper lemmas -/

theorem ratFloor_intCast (z : ℤ) : ratFloor (z : ℚ) = z := by
  simp [ratFloor, Rat.num_intCast, Rat.den_intCast, Int.fdiv_one]

theorem roundHalfEven_intCast (z : ℤ) : roundHalfEven (z : ℚ) = z := by
  simp [roundHalfEven, ratFloor_intCast]

theorem pyInt_natCast (m : ℕ) : pyInt ((m : ℕ) : ℚ) = (m : ℤ) := by
  unfold pyInt
  rw [if_pos (by positivity)]
  have h : ((m : ℕ) : ℚ) = ((m : ℤ) : ℚ) := by push_cast; ring
  rw [h, ratFloor_intCast]

theorem pyStrFind_eq (c : Char) (l : List Char) :
    pyStrFind c l =
      if c ∈ l then ((l.takeWhile (fun x => x != c)).length : ℤ) else -1 := by
  induction l with
  | nil => simp [pyStrFind]
  | cons x xs ih =>
    by_cases hx : x = c
    · subst hx
      simp [pyStrFind, List.takeWhile_cons]
    · by_cases hm : c ∈ xs
      · have hlen : pyStrFind c xs = ((xs.takeWhile (fun x => x != c)).length : ℤ) := by
          rw [ih, if_pos hm]
        simp [pyStrFind, hx, hlen, List.takeWhile_cons, hm, Ne.symm hx]
      · have hneg : pyStrFind c xs = -1 := by rw [ih, if_neg hm]
        simp [pyStrFind, hx, hneg, hm, Ne.symm hx]

theorem digitsOfScaleText_eq (t : String) :
    digitsOfScaleText t = decimalDigitCount t := by
  unfold digitsOfScaleText decimalDigitCount
  rw [pyStrFind_eq]
  by_cases h : (Char.ofNat 46) ∈ t.data.reverse
  · rw [if_pos h]
    simp only [if_pos h]
    omega
  · rw [if_neg h]
    simp only [if_neg h]
    rfl

theorem coordinatorTick_not_ready (s : CoordinatorState) (f : FetchOutcome)
    (h : s.ready = false) :
    (coordinatorTick s f).1.ready = false ∧ (coordinatorTick s f).2 = 0 := by
  simp [coordinatorTick, h]

theorem runTicks_not_ready (fs : List FetchOutcome) :
    ∀ s : CoordinatorState, s.ready = false →
      (runTicks s fs).1.ready = false ∧ (runTicks s fs).2 = 0 := by
  induction fs with
  | nil => intro s h; simpa [runTicks] using h
  | cons f fs ih =>
    intro s h
    have h1 := coordinatorTick_not_ready s f h
    have h2 := ih (coordinatorTick s f).1 h1.1
    simp [runTicks, h1.2, h2.1, h2.2]

theorem scanTrace_append (tr ex : List BridgeAction) :
    scanTrace (tr ++ ex) = ex.foldl scanStep (scanTrace tr) := by
  simp [scanTrace, List.foldl_append]

theorem bridgeStep_scan (s : BridgeState) (e : BridgeEvent)
    (h : scanTrace s.trace = some s.inFlight.isSome) :
    scanTrace (bridgeStep s e).trace = some (bridgeStep s e).inFlight.isSome := by
  cases e with
  | submit i =>
    cases hf : s.inFlight with
    | none =>
      rw [hf] at h
      simp only [Option.isSome_none] at h
      simp [bridgeStep, hf, scanTrace_append, scanStep, h]
    | some j =>
      rw [hf] at h
      simp [bridgeStep, hf, h]
  | complete =>
    cases hf : s.inFlight with
    | none => simp [bridgeStep, hf, hf ▸ h]
    | some i =>
      rw [hf] at h
      simp only [Option.isSome_some] at h
      cases hq : s.queue with
      | nil => simp [bridgeStep, hf, hq, scanTrace_append, scanStep, h]
      | cons j rest => simp [bridgeStep, hf, hq, scanTrace_append, scanStep, h]

theorem bridgeRun_scan (events : List BridgeEvent) :
    scanTrace (bridgeRun events).trace = some (bridgeRun events).inFlight.isSome := by
  suffices h : ∀ s : BridgeState, scanTrace s.trace = some s.inFlight.isSome →
      scanTrace (events.foldl bridgeStep s).trace =
        some (events.foldl bridgeStep s).inFlight.isSome by
    exact h ⟨none, [], []⟩ rfl
  induction events with
  | nil => intro s hs; exact hs
  | cons e es ih => intro s hs; exact ih (bridgeStep s e) (bridgeStep_scan s e hs)

/-! ### Claim theorems -/

/-- C1: the claim says that when a configuration-data scan interval is
supplied, setup constructs a configuration-data poll coordinator and stores
it in the runtime data record alongside the realtime and inverter
coordinators.  The sources contradict this: the init module imports
`SajR5MqttConfigDataCoordinator` from the coordinator module, which does not
define it, and passes the keyword `coordinator_config_data` to the
`SajR5MqttData` dataclass, which has no such field (so the call would raise
`TypeError` even if the import succeeded), while sensor.py reads exactly
that attribute and `mark_coordinators_ready` never marks a config
coordinator.  This theorem records the mismatch between the declared names
and the names used. -/
theorem c1_config_data_coordinator_missing :
    ("SajR5MqttConfigDataCoordinator" ∈ initCoordinatorImports ∧
     "SajR5MqttConfigDataCoordinator" ∉ coordinatorModuleClasses) ∧
    ("coordinator_config_data" ∈ asyncSetupEntryRuntimeDataKwargs ∧
     "coordinator_config_data" ∈ sensorSetupRuntimeDataAttrs ∧
     "coordinator_config_data" ∉ sajR5MqttDataFields ∧
     "coordinator_config_data" ∉ markCoordinatorsReadyTargets ∧
     dataclassCallAccepted sajR5MqttDataFields asyncSetupEntryRuntimeDataKwargs
       = false) := by
  decide

/-- C3: when a ready coordinator's fetch fails (timeout or transport down),
the tick keeps the cached buffer byte-for-byte and only reports the failure
to observers (`lastUpdateSuccess = false`); `coordinatorTick` being a total
function, the failure does not propagate past the coordinator. -/
theorem c3_failure_retains_buffer (s : CoordinatorState) (f : FetchOutcome)
    (hr : s.ready = true) (hf : f = .failure) :
    (coordinatorTick s f).1.data = s.data ∧
    (coordinatorTick s f).1.lastUpdateSuccess = false := by
  subst hf
  simp [coordinatorTick, hr]

/-- Witness for C3 at a concrete state holding buffer [1, 2, 3]. -/
theorem c3_failure_retains_buffer_witness :
    (coordinatorTick ⟨some [1, 2, 3], true, true⟩ .failure).1.data = some [1, 2, 3] ∧
    (coordinatorTick ⟨some [1, 2, 3], true, true⟩ .failure).1.lastUpdateSuccess
      = false :=
  c3_failure_retains_buffer ⟨some [1, 2, 3], true, true⟩ .failure rfl rfl

/-- C4: starting from a not-ready coordinator, any sequence of scheduled
ticks performs zero `read_registers` calls, and the very next tick after the
readiness signal (`markReady`) performs exactly one call, whatever its
outcome. -/
theorem c4_not_ready_skips_then_one_call (s : CoordinatorState)
    (fs : List FetchOutcome) (f : FetchOutcome) (h : s.ready = false) :
    (runTicks s fs).2 = 0 ∧
    (coordinatorTick (markReady (runTicks s fs).1) f).2 = 1 := by
  refine ⟨(runTicks_not_ready fs s h).2, ?_⟩
  cases f <;> simp [coordinatorTick, markReady]

/-- Witness for C4: two not-ready ticks make zero calls, the first tick
after readiness makes exactly one. -/
theorem c4_not_ready_skips_then_one_call_witness :
    (runTicks ⟨none, false, true⟩ [.failure, .success [1]]).2 = 0 ∧
    (coordinatorTick (markReady (runTicks ⟨none, false, true⟩
        [.failure, .success [1]]).1) (.success [2])).2 = 1 :=
  c4_not_ready_skips_then_one_call ⟨none, false, true⟩ [.failure, .success [1]]
    (.success [2]) rfl

/-- C5: on every event sequence the bridge's action trace is single-flight
serialized: the scan never hits a publish while an earlier request is
unresolved (so a second request's publish never precedes the first
request's resolution), and the scan's final pending flag agrees with the
in-flight slot (an `Option`, hence at most one outstanding request).  The
second conjunct runs two concurrent requests: the second's publish appears
only after the first resolves. -/
theorem c5_bridge_single_flight :
    (∀ events : List BridgeEvent,
        scanTrace (bridgeRun events).trace =
          some (bridgeRun events).inFlight.isSome) ∧
    (bridgeRun [.submit 1, .submit 2, .complete, .complete]).trace =
      [.published 1, .resolved 1, .published 2, .resolved 2] :=
  ⟨bridgeRun_scan, by decide⟩

/-- C6: whenever the six timestamp fields read from the 8-byte span do not
form a valid calendar date, the decode returns `none` — by totality of
`inverterTimeNativeValue`, never an error. -/
theorem c6_invalid_timestamp_returns_none (p : List ℕ) (off : ℕ)
    (h : validDateTime
        (byteAt (pySlice p off 8) 0 * 256 + byteAt (pySlice p off 8) 1)
        (byteAt (pySlice p off 8) 2) (byteAt (pySlice p off 8) 3)
        (byteAt (pySlice p off 8) 4) (byteAt (pySlice p off 8) 5)
        (byteAt (pySlice p off 8) 6) = false) :
    inverterTimeNativeValue (some p) off = none := by
  simp [inverterTimeNativeValue, h]

/-- Witness for C6: bytes for year 2024, month 13 decode to `none`. -/
theorem c6_invalid_timestamp_returns_none_witness :
    inverterTimeNativeValue (some [7, 232, 13, 1, 0, 0, 0, 0]) 0 = none :=
  c6_invalid_timestamp_returns_none [7, 232, 13, 1, 0, 0, 0, 0] 0 (by decide)

/-- C7: the value decode is total.  An absent buffer decodes to `none`; a
buffer too short for a numeric descriptor's offset decodes to `none` (the
`struct.error` is caught at the decode boundary); a conversion function
that raises (modelled as returning `none`) also yields `none`.  In no case
does a failure propagate to the caller. -/
theorem c7_decode_total :
    (∀ d : SajR5MqttEntityDescription, get_entity_description none d = none) ∧
    (∀ (p : List ℕ) (d : SajR5MqttEntityDescription),
        (d.modbus_register_data_type = .u16be ∨
         d.modbus_register_data_type = .s16be ∨
         d.modbus_register_data_type = .u32be) →
        p.length < d.modbus_register_offset + typeSize d.modbus_register_data_type →
        get_entity_description (some p) d = none) ∧
    (∀ (p : List ℕ) (d : SajR5MqttEntityDescription)
        (f : SajValue → Option SajValue),
        d.value_fn = some f → (∀ v, f v = none) →
        get_entity_description (some p) d = none) := by
  refine ⟨fun d => rfl, ?_, ?_⟩
  · intro p d hdt hlen
    have hnone : unpackNumeric d.modbus_register_data_type p
        d.modbus_register_offset = none := by
      unfold unpackNumeric
      rw [if_neg (by omega)]
    rcases hdt with h | h | h <;>
      rw [h] at hnone <;>
      simp [get_entity_description, rawValue, h, hnone]
  · intro p d f hf hfn
    cases hr : rawValue d p with
    | none => simp [get_entity_description, hr]
    | some v =>
      cases hs : scaledValue d v with
      | none => simp [get_entity_description, hr, hs]
      | some v2 => simp [get_entity_description, hr, hs, hf, hfn]

/-- Witness for C7: a 2-byte numeric descriptor over the empty buffer
decodes to `none`. -/
theorem c7_decode_total_witness :
    get_entity_description (some []) ⟨"today_hours", 0, .u16be, none, none⟩
      = none :=
  c7_decode_total.2.1 [] ⟨"today_hours", 0, .u16be, none, none⟩
    (Or.inl rfl) (by decide)

/-- C9: a fixed-length text descriptor decodes by slicing the fixed span at
the offset, ASCII-decoding it with invalid bytes ignored, and stripping
trailing NUL padding; in particular the bytes of "ABC" followed by two NULs
decode to "ABC". -/
theorem c9_text_decode :
    (∀ (key : String) (off n : ℕ) (p : List ℕ),
        get_entity_description (some p) ⟨key, off, .strFixed n, none, none⟩ =
          some (.str (String.mk (rstripChar (Char.ofNat 0)
            (asciiDecodeIgnore (pySlice p off n)))))) ∧
    get_entity_description (some [65, 66, 67, 0, 0])
        ⟨"serial_number", 0, .strFixed 5, none, none⟩ =
      some (.str "ABC") :=
  ⟨fun _ _ _ _ => rfl, by decide⟩

/-- Evaluation of the decoder on the C2 input: descriptor with string scale
"0.10" (float value 1/10), raw big-endian 16-bit value 1234. -/
theorem c2_eval :
    get_entity_description (some [4, 210])
        ⟨"power_limit", 0, .u16be, some ⟨1/10, "0.10", true⟩, none⟩ =
      some (SajValue.str "123.40") := by
  have h3 : digitsOfScaleText "0.10" = 2 := by decide
  have h1 : pyRound ((1234 : ℚ) * (10 : ℚ)⁻¹) 2 = (12340 : ℚ) / 100 := by
    have h : ((1234 : ℚ) * (10 : ℚ)⁻¹ * 10 ^ 2) = ((12340 : ℤ) : ℚ) := by norm_num
    rw [pyRound, h, roundHalfEven_intCast]
    norm_num
  have h2 : formatFixed ((12340 : ℚ) / 100) 2 = "123.40" := by
    have h : ((12340 : ℚ) / 100 * 10 ^ 2) = ((12340 : ℤ) : ℚ) := by norm_num
    rw [formatFixed, h, roundHalfEven_intCast]
    decide
  simp [get_entity_description, rawValue, unpackNumeric, byteAt, typeSize,
    scaledValue, applyScale, h3, h1, h2]

/-- C2 counterexample: the claim says the decode of raw value 1234 under the
string scale "0.10" is the string "123.4"; it is not — the scale's textual
form has two decimal digits, so the value is formatted with two decimals. -/
theorem c2_string_scale_counterexample :
    get_entity_description (some [4, 210])
        ⟨"power_limit", 0, .u16be, some ⟨1/10, "0.10", true⟩, none⟩ ≠
      some (SajValue.str "123.4") := by
  rw [c2_eval]
  decide

/-- C2 amended: for a descriptor whose scale is the string "0.10" and raw
16-bit value 1234 at the offset, the decode produces the string "123.40"
(fixed two-decimal rendering, trailing zero preserved). -/
theorem c2_string_scale_two_decimals :
    get_entity_description (some [4, 210])
        ⟨"power_limit", 0, .u16be, some ⟨1/10, "0.10", true⟩, none⟩ =
      some (SajValue.str "123.40") :=
  c2_eval

/-- C8: for every numeric descriptor with a numeric (non-string) scale and
no conversion function, the decoded value is the raw wire value times the
scale, rounded to the number of decimal digits in the scale factor's
textual form. -/
theorem c8_numeric_scale_rounding (dt : RegDataType) (key t : String)
    (off : ℕ) (q : ℚ) (p : List ℕ) (z : ℤ)
    (h : unpackNumeric dt p off = some z) :
    get_entity_description (some p) ⟨key, off, dt, some ⟨q, t, false⟩, none⟩ =
      some (.num (pyRound ((z : ℚ) * q) (decimalDigitCount t))) := by
  have hd : digitsOfScaleText t = decimalDigitCount t := digitsOfScaleText_eq t
  cases dt with
  | strFixed n => simp [unpackNumeric] at h
  | u16be => simp [get_entity_description, rawValue, scaledValue, applyScale, h, hd]
  | s16be => simp [get_entity_description, rawValue, scaledValue, applyScale, h, hd]
  | u32be => simp [get_entity_description, rawValue, scaledValue, applyScale, h, hd]

/-- Witness for C8: raw value 1234 with scale 0.1 decodes to 123.4. -/
theorem c8_numeric_scale_rounding_witness :
    get_entity_description (some [4, 210])
        ⟨"pv1_voltage", 0, .u16be, some ⟨1/10, "0.1", false⟩, none⟩ =
      some (.num (pyRound (((1234 : ℤ) : ℚ) * (1/10)) (decimalDigitCount "0.1"))) ∧
    pyRound (((1234 : ℤ) : ℚ) * (1/10)) (decimalDigitCount "0.1") = (1234 : ℚ) / 10 := by
  refine ⟨c8_numeric_scale_rounding .u16be "pv1_voltage" "0.1" 0 (1/10) [4, 210]
    1234 (by decide), ?_⟩
  have hd : decimalDigitCount "0.1" = 1 := by decide
  have h : (((1234 : ℤ) : ℚ) * (1/10) * 10 ^ 1) = ((1234 : ℤ) : ℚ) := by norm_num
  rw [hd, pyRound, h, roundHalfEven_intCast]
  norm_num

/-- C10: for every value the power-limit number entity accepts (an integer
between 0 and 110), setting the entity writes register 0x801F with the
value times 10 through the mqtt client, and raises exactly when the
client's write returns null. -/
theorem c10_power_limit_write (n : ℕ) (write_register : ℕ → ℤ → Option ℕ)
    (h : n ≤ 110) :
    (async_set_native_value powerLimitNumberDescription (n : ℚ)
        write_register).1 = (0x801F, ((10 * n : ℕ) : ℤ)) ∧
    ((async_set_native_value powerLimitNumberDescription (n : ℚ)
        write_register).2 = true ↔
      write_register 0x801F ((10 * n : ℕ) : ℤ) = none) := by
  have hs : pyInt ((n : ℚ) * powerLimitNumberDescription.value_scale) =
      ((10 * n : ℕ) : ℤ) := by
    have hx : (n : ℚ) * powerLimitNumberDescription.value_scale =
        (((10 * n : ℕ)) : ℚ) := by
      simp only [powerLimitNumberDescription]
      push_cast
      ring
    rw [hx, pyInt_natCast]
  unfold async_set_native_value
  rw [hs]
  exact ⟨rfl, Option.isNone_iff_eq_none⟩

/-- Witness for C10 at value 100 with a write that succeeds. -/
theorem c10_power_limit_write_witness :
    (async_set_native_value powerLimitNumberDescription ((100 : ℕ) : ℚ)
        (fun _ _ => some 1000)).1 = (0x801F, ((10 * 100 : ℕ) : ℤ)) ∧
    ((async_set_native_value powerLimitNumberDescription ((100 : ℕ) : ℚ)
        (fun _ _ => some 1000)).2 = true ↔
      (fun _ _ => some 1000 : ℕ → ℤ → Option ℕ) 0x801F ((10 * 100 : ℕ) : ℤ)
        = none) :=
  c10_power_limit_write 100 (fun _ _ => some 1000) (by norm_num)

end SajR5Mqtt
